import Mathlib

/-!
Verification development for the mn_payments repository.

The Python sources are shallowly embedded: monetary amounts become exact
rationals, the Frappe database becomes explicit lists of rows, outbound
HTTP calls become oracle parameters, and every fallible operation returns
an Except value.  Each definition mirrors one function of the source tree.
-/

namespace MnPayments

/-! ## VAT calculator (src/mn_payments/sdk/ebarimt.py, class VATCalculator) -/

/-- Round a rational to 2 fractional digits, ties away from zero.
Mirrors Decimal.quantize(Decimal(0.01), rounding=ROUND_HALF_UP). -/
def roundHalfUp2 (q : ℚ) : ℚ :=
  if 0 ≤ q then (⌊q * 100 + 1 / 2⌋ : ℚ) / 100
  else -((⌊-q * 100 + 1 / 2⌋ : ℚ) / 100)

/-- VATCalculator.VAT_RATE. -/
def VAT_RATE : ℚ := 10 / 100

/-- VATCalculator.CITY_TAX_RATE. -/
def CITY_TAX_RATE : ℚ := 1 / 100

/-- VATCalculator.get_vat: amount / (1 + VAT_RATE) * VAT_RATE, rounded. -/
def get_vat (total_amount : ℚ) : ℚ :=
  roundHalfUp2 (total_amount / (1 + VAT_RATE) * VAT_RATE)

/-- VATCalculator.get_vat_with_city_tax. -/
def get_vat_with_city_tax (total_amount : ℚ) : ℚ :=
  roundHalfUp2 (total_amount / (1 + VAT_RATE + CITY_TAX_RATE) * VAT_RATE)

/-- VATCalculator.get_city_tax. -/
def get_city_tax (total_amount : ℚ) : ℚ :=
  roundHalfUp2 (total_amount / (1 + VAT_RATE + CITY_TAX_RATE) * CITY_TAX_RATE)

/-- VATCalculator.get_city_tax_without_vat. -/
def get_city_tax_without_vat (total_amount : ℚ) : ℚ :=
  roundHalfUp2 (total_amount / (1 + CITY_TAX_RATE) * CITY_TAX_RATE)

/-- VATCalculator.number_precision. -/
def number_precision (amount : ℚ) : ℚ := roundHalfUp2 amount

/-! ## Receipt batch builder and submission flow
(src/mn_payments/sdk/ebarimt.py, class EbarimtClient) -/

/-- TaxType enum of the SDK. -/
inductive TaxType
  | VAT_ABLE
  | VAT_FREE
  | VAT_ZERO
  | NOT_VAT
deriving DecidableEq

/-- MerchantInfo dataclass (fields used by the receipt flow). -/
structure MerchantInfo where
  name : String
  vat_payer : Bool
  city_payer : Bool
  free_project : Bool
  found : Bool
deriving DecidableEq

/-- ReceiptItem dataclass.  The tax regime is optional so that an item with a
missing regime (dropped by the filter) can be represented. -/
structure ReceiptItem where
  name : String
  tax_type : Option TaxType
  classification_code : String
  qty : ℚ
  total_amount : ℚ
  measure_unit : String
  tax_product_code : String
  is_city_tax : Bool := false
  bar_code : String := ""
deriving DecidableEq

/-- CreateReceiptRequest dataclass. -/
structure CreateReceiptRequest where
  items : List ReceiptItem
  branch_no : String
  district_code : String
  org_code : Option String := none
  mail_to : Option String := none
deriving DecidableEq

/-- A per-item wire record as built by _build_receipt_items. -/
structure BuiltItem where
  name : String
  barCode : String
  classificationCode : String
  taxProductCode : String
  measureUnit : String
  qty : ℚ
  unitPrice : ℚ
  totalAmount : ℚ
  totalVat : ℚ
  totalCityTax : ℚ
deriving DecidableEq

/-- One regime group accumulated by _build_receipt_items. -/
structure TaxGroup where
  items : List BuiltItem
  total_amount : ℚ
  total_vat : ℚ
  total_city_tax : ℚ
deriving DecidableEq

/-- Python truthiness of an optional string (None and "" are falsy). -/
def strTruthy : Option String → Bool
  | none => false
  | some s => s ≠ ""

/-- The wire record built for one ReceiptItem inside _build_receipt_items. -/
def buildItem (merchant : MerchantInfo) (t : TaxType) (item : ReceiptItem) : BuiltItem :=
  let total_vat : ℚ :=
    if merchant.vat_payer ∧ t = TaxType.VAT_ABLE then
      if item.is_city_tax then get_vat_with_city_tax item.total_amount
      else get_vat item.total_amount
    else 0
  let total_city_tax : ℚ :=
    if item.is_city_tax ∧ t = TaxType.VAT_ABLE then get_city_tax item.total_amount else 0
  { name := item.name
    barCode := item.bar_code
    classificationCode := item.classification_code
    taxProductCode := item.tax_product_code
    measureUnit := item.measure_unit
    qty := item.qty
    unitPrice := number_precision (item.total_amount / item.qty)
    totalAmount := item.total_amount
    totalVat := total_vat
    totalCityTax := total_city_tax }

/-- Insert a built item into the ordered regime-keyed grouping
(dict insertion-order semantics). -/
def addToGroup (groups : List (TaxType × TaxGroup)) (t : TaxType) (b : BuiltItem) :
    List (TaxType × TaxGroup) :=
  match groups with
  | [] => [(t, ⟨[b], b.totalAmount, b.totalVat, b.totalCityTax⟩)]
  | (t₀, g) :: rest =>
    if t₀ = t then
      (t₀, { g with
              items := g.items ++ [b]
              total_amount := g.total_amount + b.totalAmount
              total_vat := g.total_vat + b.totalVat
              total_city_tax := g.total_city_tax + b.totalCityTax }) :: rest
    else (t₀, g) :: addToGroup rest t b

/-- EbarimtClient._build_receipt_items: drop items missing a regime or a
classification code, group the rest by regime, accumulate totals. -/
def buildReceiptItems (merchant : MerchantInfo) (items : List ReceiptItem) :
    List (TaxType × TaxGroup) :=
  items.foldl
    (fun groups item =>
      match item.tax_type with
      | none => groups
      | some t =>
        if item.classification_code = "" then groups
        else addToGroup groups t (buildItem merchant t item))
    []

/-- Static client configuration (EbarimtClient constructor arguments). -/
structure ClientCfg where
  endpoint : String
  pos_no : String
  merchant_tin : String
  save_to_db : Bool := true
  send_email : Bool := true
deriving DecidableEq

/-- One per-regime sub-receipt of the outer envelope. -/
structure SubReceipt where
  taxType : TaxType
  items : List BuiltItem
  totalAmount : ℚ
  totalVat : ℚ
  totalCityTax : ℚ
deriving DecidableEq

/-- The outer envelope posted to /rest/receipt (EbarimtClient._build_request). -/
structure ReceiptEnvelope where
  merchantTin : String
  posNo : String
  branchNo : String
  districtCode : String
  rtype : String
  customerTin : String
  totalAmount : ℚ
  totalVat : ℚ
  totalCityTax : ℚ
  receipts : List SubReceipt
deriving DecidableEq

/-- EbarimtClient._build_request. -/
def buildRequest (client : ClientCfg) (groups : List (TaxType × TaxGroup))
    (req : CreateReceiptRequest) (rtype : String) (customerTin : String) :
    ReceiptEnvelope :=
  { merchantTin := client.merchant_tin
    posNo := client.pos_no
    branchNo := req.branch_no
    districtCode := req.district_code
    rtype := rtype
    customerTin := customerTin
    totalAmount := (groups.map (·.2.total_amount)).sum
    totalVat := (groups.map (·.2.total_vat)).sum
    totalCityTax := (groups.map (·.2.total_city_tax)).sum
    receipts := groups.map (fun p =>
      ⟨p.1, p.2.items, p.2.total_amount, p.2.total_vat, p.2.total_city_tax⟩) }

/-- Raw JSON reply of the POS gateway (the fields create_receipt reads). -/
structure PosResp where
  status : String
  message : String := ""
  id : String := ""
  lottery : String := ""
  qrData : String := ""
  date : String := ""
  totalAmount : ℚ := 0
  totalVat : ℚ := 0
  totalCityTax : ℚ := 0
deriving DecidableEq

/-- ReceiptResponse dataclass (the fields create_receipt fills). -/
structure ReceiptResponse where
  id : String
  lottery : String
  qr_data : String
  date : String
  total_amount : ℚ
  total_vat : ℚ
  total_city_tax : ℚ
  status : String
  message : String
  rtype : String
deriving DecidableEq

/-- Outcome of one create_receipt call: the envelopes actually posted to the
gateway (in order), what was persisted, and the returned value or error. -/
structure CreateReceiptOutcome where
  sent : List ReceiptEnvelope
  persisted : Option ReceiptResponse
  result : Except String ReceiptResponse

/-- Lookup of one regime group. -/
def lookupGroup (groups : List (TaxType × TaxGroup)) (t : TaxType) : Option TaxGroup :=
  (groups.find? (fun p => p.1 = t)).map (·.2)

/-- Deletion of one regime group (del receipts_by_tax[...]). -/
def removeGroup (groups : List (TaxType × TaxGroup)) (t : TaxType) :
    List (TaxType × TaxGroup) :=
  groups.filter (fun p => p.1 ≠ t)

/-- The second half of create_receipt: submit the remaining groups as one
request, or raise when none remain. -/
def mainPhase (client : ClientCfg) (groups : List (TaxType × TaxGroup))
    (req : CreateReceiptRequest) (rtype customerTin : String)
    (oracle : ℕ → PosResp) (idx : ℕ) (sent : List ReceiptEnvelope) :
    CreateReceiptOutcome :=
  if groups.isEmpty then ⟨sent, none, .error "No items to process"⟩
  else
    let env := buildRequest client groups req rtype customerTin
    let resp := oracle idx
    if resp.status ≠ "SUCCESS" then
      ⟨sent ++ [env], none, .error ("Receipt failed: " ++ resp.message)⟩
    else
      let rr : ReceiptResponse :=
        ⟨resp.id, resp.lottery, resp.qrData, resp.date, resp.totalAmount,
          resp.totalVat, resp.totalCityTax, resp.status, resp.message, rtype⟩
      ⟨sent ++ [env], if client.save_to_db then some rr else none, .ok rr⟩

/-- EbarimtClient.create_receipt.  The remote gateway is an oracle mapping the
index of the submission to its JSON reply; customerTin is the (possibly
failed, hence empty) result of the TIN lookup. -/
def createReceipt (client : ClientCfg) (merchant : MerchantInfo)
    (req : CreateReceiptRequest) (customerTin : String) (oracle : ℕ → PosResp) :
    CreateReceiptOutcome :=
  let groups := buildReceiptItems merchant req.items
  let rtype := if strTruthy req.org_code then "B2B_RECEIPT" else "B2C_RECEIPT"
  match lookupGroup groups TaxType.NOT_VAT with
  | some g =>
    let env₁ := buildRequest client [(TaxType.NOT_VAT, g)] req rtype customerTin
    let resp₁ := oracle 0
    if resp₁.status ≠ "SUCCESS" then
      ⟨[env₁], none, .error ("NO_VAT receipt failed: " ++ resp₁.message)⟩
    else
      mainPhase client (removeGroup groups TaxType.NOT_VAT) req rtype customerTin
        oracle 1 [env₁]
  | none => mainPhase client groups req rtype customerTin oracle 0 []

/-! ## QPay invoice API (src/mn_payments/api/qpay.py) and the Qpay Invoice
doctype (src/mn_payments/doctype/qpay_invoice/qpay_invoice.py) -/

/-- STATUS_MAP constant. -/
def STATUS_MAP (s : String) : Option String :=
  if s = "PAID" then some "Paid"
  else if s = "FAILED" then some "Failed"
  else if s = "CANCELLED" then some "Cancelled"
  else none

/-- Python (a or b or "") over two optional strings, where None and the empty
string are falsy. -/
def firstTruthy (a b : Option String) : String :=
  match a with
  | some s => if s = "" then (match b with | some t => t | none => "") else s
  | none => match b with | some t => t | none => ""

/-- Python str.upper for ASCII strings (character-wise uppercasing). -/
def strUpper (s : String) : String :=
  String.mk (s.data.map Char.toUpper)

/-- _extract_status: first truthy of payment_status and status, uppercased,
looked up in STATUS_MAP. -/
def extract_status (payment_status status : Option String) : Option String :=
  STATUS_MAP (strUpper (firstTruthy payment_status status))

/-- One row of a QPay payment-check response (the fields _extract_status reads). -/
structure PaymentRow where
  payment_status : Option String
  status : Option String
deriving DecidableEq

/-- A QPay payment-check response body. -/
structure PaymentCheckData where
  rows : List PaymentRow
deriving DecidableEq

/-- Webhook callback body (the fields the callback endpoint reads). -/
structure CallbackPayload where
  invoice_id : Option String
  object_id : Option String
  payment_status : Option String
  status : Option String
deriving DecidableEq

/-- The audit payload stored on the invoice row by _as_json. -/
inductive StoredPayload
  | callback (p : CallbackPayload)
  | check (d : PaymentCheckData)
deriving DecidableEq

/-- A Qpay Invoice row (doctype fields touched by the API module). -/
structure QpayInvoiceDoc where
  name : String
  payment_request : String
  invoice_id : String
  invoice_code : Option String
  qr_text : Option String
  qr_image : Option String
  urls : List String
  request_payload : Option String
  response_payload : Option String
  payment_amount : ℚ
  payment_currency : Option String
  status : String
  payment_result : Option StoredPayload
  last_payment_check : Option ℕ
deriving DecidableEq

/-- A Payment Request document as seen by _mark_payment_request_paid: its
status and whether it exposes a callable on_payment_authorized hook. -/
structure PaymentRequestRow where
  status : String
  has_on_payment_authorized : Bool
deriving DecidableEq

/-- _mark_payment_request_paid: set status to Paid unless it already is, then
invoke on_payment_authorized whenever the hook is callable.  Returns the
updated document and whether the hook was invoked. -/
def markPaymentRequestPaid (pr : Option PaymentRequestRow) :
    Option PaymentRequestRow × Bool :=
  match pr with
  | none => (none, false)
  | some d =>
    (some (if d.status ≠ "Paid" then { d with status := "Paid" } else d),
      d.has_on_payment_authorized)

/-- Result of _apply_payment_status: the saved invoice document, the linked
Payment Request, and whether on_payment_authorized fired. -/
structure StatusApplyOutcome where
  doc : QpayInvoiceDoc
  pr : Option PaymentRequestRow
  notified : Bool

/-- _apply_payment_status. -/
def applyPaymentStatus (doc : QpayInvoiceDoc) (resp : PaymentCheckData)
    (pr : Option PaymentRequestRow) (now : ℕ) : StatusApplyOutcome :=
  let doc₁ := { doc with
    payment_result := some (.check resp)
    last_payment_check := some now }
  match resp.rows with
  | [] => ⟨doc₁, pr, false⟩
  | row :: _ =>
    match extract_status row.payment_status row.status with
    | none => ⟨doc₁, pr, false⟩
    | some st =>
      let doc₂ := { doc₁ with status := st }
      if st = "Paid" then
        let m := markPaymentRequestPaid pr
        ⟨doc₂, m.1, m.2⟩
      else ⟨doc₂, pr, false⟩

/-- Replace the invoice row of the same name (doc.save on an existing row). -/
def replaceInvoice (db : List QpayInvoiceDoc) (doc : QpayInvoiceDoc) :
    List QpayInvoiceDoc :=
  db.map (fun r => if r.name = doc.name then doc else r)

/-- db.get_value("Qpay Invoice", {"invoice_id": ...}) plus frappe.get_doc. -/
def findInvoice (db : List QpayInvoiceDoc) (iid : String) : Option QpayInvoiceDoc :=
  db.find? (fun r => r.invoice_id = iid)

/-- Result of the webhook callback endpoint: HTTP body (status, reason), the
invoice table, the Payment Request store, and whether on_payment_authorized
fired during the call. -/
structure CallbackOutcome where
  response_status : String
  response_reason : Option String
  db : List QpayInvoiceDoc
  prOf : String → Option PaymentRequestRow
  notified : Bool

/-- The webhook callback endpoint.  prOf is the Payment Request table, keyed
by document name. -/
def qpayCallback (payload : CallbackPayload) (db : List QpayInvoiceDoc)
    (prOf : String → Option PaymentRequestRow) (now : ℕ) : CallbackOutcome :=
  let iid := firstTruthy payload.invoice_id payload.object_id
  if iid = "" then ⟨"ignored", some "missing-invoice", db, prOf, false⟩
  else
    match findInvoice db iid with
    | none => ⟨"ignored", some "unknown-invoice", db, prOf, false⟩
    | some doc =>
      let doc₁ := { doc with
        payment_result := some (.callback payload)
        last_payment_check := some now }
      match extract_status payload.payment_status payload.status with
      | none => ⟨"success", none, replaceInvoice db doc₁, prOf, false⟩
      | some st =>
        let doc₂ := { doc₁ with status := st }
        if st = "Paid" then
          let m := markPaymentRequestPaid (prOf doc.payment_request)
          ⟨"success", none, replaceInvoice db doc₂,
            fun k => if k = doc.payment_request then m.1 else prOf k, m.2⟩
        else ⟨"success", none, replaceInvoice db doc₂, prOf, false⟩

/-- The field set written by _upsert_invoice_doc. -/
structure UpsertFields where
  invoice_id : String
  invoice_code : Option String
  qr_text : Option String
  qr_image : Option String
  urls : List String
  request_payload : Option String
  response_payload : Option String
  payment_amount : ℚ
  payment_currency : Option String
deriving DecidableEq

/-- doc.update(fields) for the upsert field set. -/
def applyFields (doc : QpayInvoiceDoc) (pr : String) (f : UpsertFields) :
    QpayInvoiceDoc :=
  { doc with
    payment_request := pr
    invoice_id := f.invoice_id
    invoice_code := f.invoice_code
    qr_text := f.qr_text
    qr_image := f.qr_image
    urls := f.urls
    request_payload := f.request_payload
    response_payload := f.response_payload
    payment_amount := f.payment_amount
    payment_currency := f.payment_currency }

/-- A fresh Qpay Invoice document before any field is assigned. -/
def emptyInvoiceDoc (name : String) : QpayInvoiceDoc :=
  ⟨name, "", "", none, none, none, [], none, none, 0, none, "", none, none⟩

/-- Insert-or-replace by document name (what doc.insert / doc.save commit). -/
def commitRow (db : List QpayInvoiceDoc) (doc : QpayInvoiceDoc) :
    List QpayInvoiceDoc :=
  if db.any (fun r => r.name = doc.name) then replaceInvoice db doc
  else db ++ [doc]

/-- Saving a Qpay Invoice runs QpayInvoice._ensure_unique_payment_request
(the before_save hook) and rejects a second invoice for the same
payment_request; otherwise the row is committed. -/
def saveInvoiceDoc (db : List QpayInvoiceDoc) (doc : QpayInvoiceDoc) :
    Except String (List QpayInvoiceDoc) :=
  if doc.payment_request ≠ "" ∧
      ∃ r ∈ db, r.payment_request = doc.payment_request ∧ r.name ≠ doc.name then
    .error ("Payment Request " ++ doc.payment_request ++
      " already has a QPay invoice.")
  else .ok (commitRow db doc)

/-- _upsert_invoice_doc: update the row already holding this payment_request,
else insert a new one named freshName. -/
def upsertInvoiceDoc (db : List QpayInvoiceDoc) (prName : String)
    (f : UpsertFields) (freshName : String) :
    Except String (List QpayInvoiceDoc × QpayInvoiceDoc) :=
  if f.invoice_id = "" then .error "QPay response did not include invoice_id."
  else
    match db.find? (fun r => r.payment_request = prName) with
    | some r =>
      let doc := { applyFields r prName f with
        status := if r.status = "" then "Pending" else r.status }
      (saveInvoiceDoc db doc).map (fun db₂ => (db₂, doc))
    | none =>
      let doc := { applyFields (emptyInvoiceDoc freshName) prName f with
        status := "Pending" }
      (saveInvoiceDoc db doc).map (fun db₂ => (db₂, doc))

/-- The paging arguments check_payment forwards to the payment-check service
(max(1, cint(...)) applied to each; on the integers cint is the identity). -/
def checkPaymentPaging (page_number page_limit : ℤ) : ℤ × ℤ :=
  (max 1 page_number, max 1 page_limit)

/-- check_payment_status of src/mn_payments/utils/qpay.py: the guard rejects
non-positive paging, otherwise the gateway (an oracle here) is consulted. -/
def checkPaymentStatusService (oracle : PaymentCheckData)
    (page_number page_limit : ℤ) : Except String PaymentCheckData :=
  if page_number < 1 ∨ page_limit < 1 then
    .error "page_number and page_limit must be positive integers."
  else .ok oracle

/-- The check_payment endpoint: coerce the paging arguments, call the service,
apply the resulting status to the invoice. -/
def checkPayment (doc : QpayInvoiceDoc) (oracle : PaymentCheckData)
    (pr : Option PaymentRequestRow) (now : ℕ) (page_number page_limit : ℤ) :
    Except String StatusApplyOutcome :=
  let p := checkPaymentPaging page_number page_limit
  (checkPaymentStatusService oracle p.1 p.2).map
    (fun data => applyPaymentStatus doc data pr now)

/-! ## Payment Transaction privacy and taxes
(src/mn_payments/api/payment.py and
src/mn_payments/doctype/payment_transaction/payment_transaction.py) -/

/-- Python round(x, 2) on exact values: round half to even at 2 fractional
digits. -/
def pyRound2 (q : ℚ) : ℚ :=
  let y := q * 100
  let f : ℤ := ⌊y⌋
  let r := y - (f : ℚ)
  if r < 1 / 2 then (f : ℚ) / 100
  else if 1 / 2 < r then ((f : ℚ) + 1) / 100
  else if f % 2 = 0 then (f : ℚ) / 100 else ((f : ℚ) + 1) / 100

/-- A Payment Transaction document (the fields touched by create_payment,
validate and the scrub task). -/
structure PaymentTransactionDoc where
  status : String
  payer_type : String
  payer_email : Option String
  entity_registration : Option String
  retain_sensitive : ℤ
  amount : ℚ
  special_tax : ℚ
  city_tax : ℚ
  total : ℚ
  qr_text : Option String
  qr_image : Option String
  qpay_invoice_id : Option String
deriving DecidableEq

/-- PaymentTransaction._compute_total. -/
def computeTotal (d : PaymentTransactionDoc) : PaymentTransactionDoc :=
  { d with total := d.amount + d.special_tax + d.city_tax }

/-- PaymentTransaction._apply_privacy_rules. -/
def applyPrivacyRules (d : PaymentTransactionDoc) : PaymentTransactionDoc :=
  if d.payer_type = "Individual" then
    { d with retain_sensitive := 0, qr_text := none, qr_image := none }
  else d

/-- PaymentTransaction.validate, run on every save. -/
def validateTransaction (d : PaymentTransactionDoc) : PaymentTransactionDoc :=
  applyPrivacyRules (computeTotal d)

/-- scrub_sensitive_fields applied to one stored record (the periodic pass). -/
def scrubOne (d : PaymentTransactionDoc) : PaymentTransactionDoc :=
  if d.retain_sensitive = 0 then { d with qr_text := none, qr_image := none }
  else d

/-- The Special Tax Type table as _compute_special_tax consults it: the rate
of the default-flagged row, if any, and the per-name rate lookup. -/
structure SpecialTaxConfig where
  default_rate : Option ℚ
  rates : String → Option ℚ

/-- Rate resolution of _compute_special_tax: named type if truthy, else the
default-flagged rate, else zero. -/
def resolveSpecialRate (cfg : SpecialTaxConfig) (special_tax_type : Option String) : ℚ :=
  if strTruthy special_tax_type then ((cfg.rates (special_tax_type.getD "")).getD 0)
  else cfg.default_rate.getD 0

/-- _compute_special_tax. -/
def computeSpecialTax (cfg : SpecialTaxConfig) (amount : ℚ)
    (special_tax_type : Option String) : ℚ :=
  pyRound2 (amount * resolveSpecialRate cfg special_tax_type / 100)

/-- The gateway invoice returned by QPayGateway.create_invoice (fields read
back by create_payment). -/
structure GatewayInvoice where
  invoice_id : Option String
  qr_text : Option String
  qr_image : Option String
deriving DecidableEq

/-- create_payment: guard the inputs, compute the taxes, insert the document
(running validate), then write the gateway's invoice fields directly with
db.set_value (no validate), redacting the QR payload unless retained.
Returns the stored row. -/
def createPayment (cfg : SpecialTaxConfig) (payer_email : Option String)
    (amount : Option ℚ) (payer_type : String)
    (entity_registration : Option String) (special_tax_type : Option String)
    (city_tax_rate : ℚ) (inv : GatewayInvoice) :
    Except String PaymentTransactionDoc :=
  if ¬ strTruthy payer_email then .error "Payer email is required"
  else if amount = none ∨ amount = some 0 then .error "Amount is required"
  else
    let base := amount.getD 0
    let special := computeSpecialTax cfg base special_tax_type
    let city := pyRound2 (base * (city_tax_rate / 100))
    let total₀ := pyRound2 (base + special + city)
    let retain : ℤ := if payer_type = "Individual" then 0 else 1
    let tx : PaymentTransactionDoc :=
      { status := "Pending", payer_type := payer_type,
        payer_email := payer_email,
        entity_registration := entity_registration,
        retain_sensitive := retain,
        amount := base, special_tax := special, city_tax := city,
        total := total₀, qr_text := none, qr_image := none,
        qpay_invoice_id := none }
    let tx₁ := validateTransaction tx
    .ok { tx₁ with
      qpay_invoice_id := inv.invoice_id
      qr_text := if retain ≠ 0 then inv.qr_text else none
      qr_image := if retain ≠ 0 then inv.qr_image else none }

/-! ## TPI bearer-token cache (src/mn_payments/utils/ebarimt.py,
get_tpi_token) -/

/-- _CachedToken. -/
structure CachedToken where
  token : String
  expires_at : ℚ
deriving DecidableEq

/-- The decoded token-endpoint response body (fields get_tpi_token reads,
expires_in already coerced with its 3600 default). -/
structure AuthResp where
  access_token : Option String
  expires_in : ℚ
deriving DecidableEq

/-- The re-authentication path of get_tpi_token: a failed HTTP exchange or a
body without access_token raises; otherwise a brand-new token expiring at
now + expires_in is stored. -/
def refreshTpi (now : ℚ) (auth : Except String AuthResp) :
    Except String (String × Option CachedToken) :=
  match auth with
  | .error e => .error ("Failed to fetch TPI token: " ++ e)
  | .ok a =>
    match a.access_token with
    | none => .error "TPI token response did not contain access_token"
    | some t =>
      if t = "" then .error "TPI token response did not contain access_token"
      else .ok (t, some ⟨t, now + a.expires_in⟩)

/-- get_tpi_token over one site's cache slot: reuse the cached token while
expires_at - leeway > now and no refresh is forced, else re-authenticate.
Returns the token and the new cache slot. -/
def getTpiToken (cache : Option CachedToken) (now leeway : ℚ)
    (force_refresh : Bool) (auth : Except String AuthResp) :
    Except String (String × Option CachedToken) :=
  if force_refresh then refreshTpi now auth
  else
    match cache with
    | some c =>
      if c.expires_at - leeway > now then .ok (c.token, some c)
      else refreshTpi now auth
    | none => refreshTpi now auth

end MnPayments

namespace MnPayments

/-- C1: the four VAT calculator entry points equal one division followed by
one multiplication and a single round-half-up to two fractional digits, and
the quoted concrete values hold. -/
theorem c1_vat_calculator_formulas :
    (∀ a : ℚ, get_vat a = roundHalfUp2 (a / (11 / 10) * (10 / 100))) ∧
    (∀ a : ℚ, get_vat_with_city_tax a = roundHalfUp2 (a / (111 / 100) * (10 / 100))) ∧
    (∀ a : ℚ, get_city_tax a = roundHalfUp2 (a / (111 / 100) * (1 / 100))) ∧
    (∀ a : ℚ, get_city_tax_without_vat a = roundHalfUp2 (a / (101 / 100) * (1 / 100))) ∧
    get_vat 10000 = 90909 / 100 ∧
    get_vat_with_city_tax 10000 = 90090 / 100 ∧
    get_city_tax 10000 = 9009 / 100 ∧
    get_city_tax_without_vat 10000 = 9901 / 100 ∧
    roundHalfUp2 (10555 / 1000) = 1056 / 100 ∧
    roundHalfUp2 (10554 / 1000) = 1055 / 100 := by
  refine ⟨?_, ?_, ?_, ?_, ?_, ?_, ?_, ?_, ?_, ?_⟩
  · intro a; norm_num [get_vat, VAT_RATE]
  · intro a; norm_num [get_vat_with_city_tax, VAT_RATE, CITY_TAX_RATE]
  · intro a; norm_num [get_city_tax, VAT_RATE, CITY_TAX_RATE]
  · intro a; norm_num [get_city_tax_without_vat, CITY_TAX_RATE]
  · norm_num [get_vat, roundHalfUp2, VAT_RATE]
  · norm_num [get_vat_with_city_tax, roundHalfUp2, VAT_RATE, CITY_TAX_RATE]
  · norm_num [get_city_tax, roundHalfUp2, VAT_RATE, CITY_TAX_RATE]
  · norm_num [get_city_tax_without_vat, roundHalfUp2, CITY_TAX_RATE]
  · norm_num [roundHalfUp2]
  · norm_num [roundHalfUp2]

/-- Two strings differ when a prefix of the first differs from the
corresponding prefix of the second. -/
theorem append_ne_of_take_ne (a b m : String) (n : ℕ) (h1 : n ≤ a.data.length)
    (h2 : a.data.take n ≠ b.data.take n) : a ++ m ≠ b := by
  intro h
  apply h2
  have hd : a.data ++ m.data = b.data := by
    rw [← String.data_append a m, h]
  rw [← hd, List.take_append_of_le_length h1]

/-- The requests sent by the second submission phase: nothing when no group
remains, otherwise exactly one more envelope holding all remaining groups. -/
theorem mainPhase_sent (client : ClientCfg) (groups : List (TaxType × TaxGroup))
    (req : CreateReceiptRequest) (rtype customerTin : String)
    (oracle : ℕ → PosResp) (idx : ℕ) (sent : List ReceiptEnvelope) :
    (mainPhase client groups req rtype customerTin oracle idx sent).sent =
      if groups.isEmpty then sent
      else sent ++ [buildRequest client groups req rtype customerTin] := by
  unfold mainPhase
  by_cases h : groups.isEmpty
  · simp [h]
  · simp only [h, Bool.false_eq_true, if_false]
    split <;> rfl

/-- With no remaining group the second phase raises the no-items error and
sends nothing further. -/
theorem mainPhase_empty (client : ClientCfg) (req : CreateReceiptRequest)
    (rtype customerTin : String) (oracle : ℕ → PosResp) (idx : ℕ)
    (sent : List ReceiptEnvelope) :
    mainPhase client [] req rtype customerTin oracle idx sent =
      ⟨sent, none, .error "No items to process"⟩ := by
  unfold mainPhase
  simp

/-- With a remaining group the second phase never raises the no-items error. -/
theorem mainPhase_ne_noItems (client : ClientCfg) (groups : List (TaxType × TaxGroup))
    (req : CreateReceiptRequest) (rtype customerTin : String)
    (oracle : ℕ → PosResp) (idx : ℕ) (sent : List ReceiptEnvelope)
    (h : groups ≠ []) :
    (mainPhase client groups req rtype customerTin oracle idx sent).result ≠
      .error "No items to process" := by
  unfold mainPhase
  have h2 : ¬ groups.isEmpty := by
    simpa [List.isEmpty_iff] using h
  simp only [h2, Bool.false_eq_true, if_false]
  split
  · intro hc
    simp only [Except.error.injEq] at hc
    exact append_ne_of_take_ne "Receipt failed: " "No items to process" _ 1
      (by decide) (by decide) hc
  · intro hc
    simp at hc

/-- A regime absent from the grouping is not removed by removeGroup. -/
theorem removeGroup_of_lookup_none (groups : List (TaxType × TaxGroup)) (t : TaxType)
    (h : lookupGroup groups t = none) : removeGroup groups t = groups := by
  unfold removeGroup
  unfold lookupGroup at h
  rw [Option.map_eq_none'] at h
  rw [List.find?_eq_none] at h
  refine List.filter_eq_self.mpr ?_
  intro p hp
  have := h p hp
  simpa using this

/-- C2: when the filtered items hold a NOT_VAT group next to at least one
other regime group, create_receipt posts the NOT_VAT group alone as the first
request; the remaining groups are posted as a second request exactly when the
NOT_VAT reply has status SUCCESS, and on a non-SUCCESS reply create_receipt
raises the error naming the exempt group and never issues a second request. -/
theorem c2_not_vat_submitted_first (client : ClientCfg) (merchant : MerchantInfo)
    (req : CreateReceiptRequest) (customerTin : String) (oracle : ℕ → PosResp)
    (g : TaxGroup)
    (hG : lookupGroup (buildReceiptItems merchant req.items) TaxType.NOT_VAT = some g)
    (hOther : ∃ p ∈ buildReceiptItems merchant req.items, p.1 ≠ TaxType.NOT_VAT) :
    (createReceipt client merchant req customerTin oracle).sent.head? =
      some (buildRequest client [(TaxType.NOT_VAT, g)] req
        (if strTruthy req.org_code then "B2B_RECEIPT" else "B2C_RECEIPT") customerTin) ∧
    (buildRequest client [(TaxType.NOT_VAT, g)] req
        (if strTruthy req.org_code then "B2B_RECEIPT" else "B2C_RECEIPT")
        customerTin).receipts.map SubReceipt.taxType = [TaxType.NOT_VAT] ∧
    ((oracle 0).status = "SUCCESS" →
      (createReceipt client merchant req customerTin oracle).sent =
        [buildRequest client [(TaxType.NOT_VAT, g)] req
          (if strTruthy req.org_code then "B2B_RECEIPT" else "B2C_RECEIPT") customerTin,
         buildRequest client
          (removeGroup (buildReceiptItems merchant req.items) TaxType.NOT_VAT) req
          (if strTruthy req.org_code then "B2B_RECEIPT" else "B2C_RECEIPT") customerTin]) ∧
    ((oracle 0).status ≠ "SUCCESS" →
      (createReceipt client merchant req customerTin oracle).sent =
        [buildRequest client [(TaxType.NOT_VAT, g)] req
          (if strTruthy req.org_code then "B2B_RECEIPT" else "B2C_RECEIPT") customerTin] ∧
      (createReceipt client merchant req customerTin oracle).result =
        .error ("NO_VAT receipt failed: " ++ (oracle 0).message)) := by
  have hRest : removeGroup (buildReceiptItems merchant req.items) TaxType.NOT_VAT ≠ [] := by
    obtain ⟨p, hp, hne⟩ := hOther
    intro hnil
    have : p ∈ removeGroup (buildReceiptItems merchant req.items) TaxType.NOT_VAT := by
      unfold removeGroup
      refine List.mem_filter.mpr ⟨hp, ?_⟩
      simpa using hne
    rw [hnil] at this
    simp at this
  by_cases hS : (oracle 0).status = "SUCCESS"
  · refine ⟨?_, ?_, ?_, ?_⟩
    · unfold createReceipt
      simp only [hG]
      rw [if_neg (by simpa using hS)]
      rw [mainPhase_sent]
      have : ¬ (removeGroup (buildReceiptItems merchant req.items) TaxType.NOT_VAT).isEmpty := by
        simpa [List.isEmpty_iff] using hRest
      simp [this]
    · simp [buildRequest]
    · intro _
      unfold createReceipt
      simp only [hG]
      rw [if_neg (by simpa using hS)]
      rw [mainPhase_sent]
      have : ¬ (removeGroup (buildReceiptItems merchant req.items) TaxType.NOT_VAT).isEmpty := by
        simpa [List.isEmpty_iff] using hRest
      simp [this]
    · intro hc
      exact absurd hS hc
  · refine ⟨?_, ?_, ?_, ?_⟩
    · unfold createReceipt
      simp only [hG]
      rw [if_pos (by simpa using hS)]
      rfl
    · simp [buildRequest]
    · intro hc
      exact absurd hc hS
    · intro _
      unfold createReceipt
      simp only [hG]
      rw [if_pos (by simpa using hS)]
      exact ⟨rfl, rfl⟩

/-- Witness for C2: one NOT_VAT item next to one VAT_ABLE item, with a gateway
that rejects the NOT_VAT submission — the NOT_VAT envelope is the only request
ever sent and the call fails with the NO_VAT error. -/
theorem c2_not_vat_submitted_first_witness :
    (createReceipt ⟨"https://pos.test", "POS1", "TIN1", true, true⟩
        ⟨"Shop", false, false, false, true⟩
        ⟨[⟨"Export", some TaxType.NOT_VAT, "3033030", 1, 100, "pcs", "303", false, ""⟩,
          ⟨"Coffee", some TaxType.VAT_ABLE, "1011010", 1, 200, "cup", "101", false, ""⟩],
         "001", "UB01", none, none⟩ ""
        (fun _ => ⟨"ERROR", "bad", "", "", "", "", 0, 0, 0⟩)).sent =
      [buildRequest ⟨"https://pos.test", "POS1", "TIN1", true, true⟩
        [(TaxType.NOT_VAT,
          ⟨[⟨"Export", "", "3033030", "303", "pcs", 1, 100, 100, 0, 0⟩], 100, 0, 0⟩)]
        ⟨[⟨"Export", some TaxType.NOT_VAT, "3033030", 1, 100, "pcs", "303", false, ""⟩,
          ⟨"Coffee", some TaxType.VAT_ABLE, "1011010", 1, 200, "cup", "101", false, ""⟩],
         "001", "UB01", none, none⟩ "B2C_RECEIPT" ""] ∧
    (createReceipt ⟨"https://pos.test", "POS1", "TIN1", true, true⟩
        ⟨"Shop", false, false, false, true⟩
        ⟨[⟨"Export", some TaxType.NOT_VAT, "3033030", 1, 100, "pcs", "303", false, ""⟩,
          ⟨"Coffee", some TaxType.VAT_ABLE, "1011010", 1, 200, "cup", "101", false, ""⟩],
         "001", "UB01", none, none⟩ ""
        (fun _ => ⟨"ERROR", "bad", "", "", "", "", 0, 0, 0⟩)).result =
      .error "NO_VAT receipt failed: bad" := by
  have h := c2_not_vat_submitted_first
    ⟨"https://pos.test", "POS1", "TIN1", true, true⟩
    ⟨"Shop", false, false, false, true⟩
    ⟨[⟨"Export", some TaxType.NOT_VAT, "3033030", 1, 100, "pcs", "303", false, ""⟩,
      ⟨"Coffee", some TaxType.VAT_ABLE, "1011010", 1, 200, "cup", "101", false, ""⟩],
     "001", "UB01", none, none⟩ ""
    (fun _ => ⟨"ERROR", "bad", "", "", "", "", 0, 0, 0⟩)
    ⟨[⟨"Export", "", "3033030", "303", "pcs", 1, 100, 100, 0, 0⟩], 100, 0, 0⟩
    (by norm_num +decide [buildReceiptItems, addToGroup, buildItem, lookupGroup,
      number_precision, roundHalfUp2])
    (by norm_num +decide [buildReceiptItems, addToGroup, buildItem,
      number_precision, roundHalfUp2])
  obtain ⟨-, -, -, h4⟩ := h
  have h5 := h4 (by decide)
  simpa [strTruthy] using h5

/-- C8 (amended): create_receipt fails with the no-items error exactly when no
group other than NOT_VAT remains after filtering and a NOT_VAT group, when
present, was submitted successfully; with zero groups after filtering nothing
is submitted and nothing is persisted. -/
theorem c8_no_items_error (client : ClientCfg) (merchant : MerchantInfo)
    (req : CreateReceiptRequest) (customerTin : String) (oracle : ℕ → PosResp) :
    ((createReceipt client merchant req customerTin oracle).result =
        .error "No items to process" ↔
      (removeGroup (buildReceiptItems merchant req.items) TaxType.NOT_VAT = [] ∧
        ((lookupGroup (buildReceiptItems merchant req.items) TaxType.NOT_VAT).isSome →
          (oracle 0).status = "SUCCESS"))) ∧
    (buildReceiptItems merchant req.items = [] →
      (createReceipt client merchant req customerTin oracle).sent = [] ∧
      (createReceipt client merchant req customerTin oracle).persisted = none) := by
  have mainIff : ∀ (gs : List (TaxType × TaxGroup)) (rtype : String) (idx : ℕ)
      (sent : List ReceiptEnvelope),
      ((mainPhase client gs req rtype customerTin oracle idx sent).result =
        .error "No items to process") ↔ gs = [] := by
    intro gs rtype idx sent
    constructor
    · intro h
      by_contra hne
      exact mainPhase_ne_noItems client gs req rtype customerTin oracle idx sent hne h
    · intro h
      subst h
      rw [mainPhase_empty]
  cases hL : lookupGroup (buildReceiptItems merchant req.items) TaxType.NOT_VAT with
  | none =>
    have hRm := removeGroup_of_lookup_none _ _ hL
    constructor
    · unfold createReceipt
      simp only [hL]
      rw [mainIff, hRm]
      simp
    · intro hnil
      unfold createReceipt
      simp only [hL]
      rw [hnil, mainPhase_empty]
      exact ⟨rfl, rfl⟩
  | some g =>
    constructor
    · by_cases hS : (oracle 0).status = "SUCCESS"
      · unfold createReceipt
        simp only [hL]
        rw [if_neg (by simpa using hS)]
        rw [mainIff]
        simp [hS]
      · unfold createReceipt
        simp only [hL]
        rw [if_pos (by simpa using hS)]
        constructor
        · intro hc
          exfalso
          simp only [Except.error.injEq] at hc
          exact append_ne_of_take_ne "NO_VAT receipt failed: " "No items to process" _ 2
            (by decide) (by decide) hc
        · rintro ⟨-, h2⟩
          exact absurd (h2 (by simp)) hS
    · intro hnil
      rw [hnil] at hL
      simp [lookupGroup] at hL

/-- Counterexample for C8: a request whose only filtered group is NOT_VAT
leaves at least one regime group after filtering, yet create_receipt submits
that group (one envelope is sent) and still fails with the no-items error. -/
theorem c8_counterexample :
    buildReceiptItems ⟨"Shop", false, false, false, true⟩
      [⟨"Export", some TaxType.NOT_VAT, "3033030", 1, 100, "pcs", "303", false, ""⟩] ≠ [] ∧
    (createReceipt ⟨"https://pos.test", "POS1", "TIN1", true, true⟩
        ⟨"Shop", false, false, false, true⟩
        ⟨[⟨"Export", some TaxType.NOT_VAT, "3033030", 1, 100, "pcs", "303", false, ""⟩],
         "001", "UB01", none, none⟩ ""
        (fun _ => ⟨"SUCCESS", "", "B1", "L1", "QR", "D", 100, 0, 0⟩)).sent.length = 1 ∧
    (createReceipt ⟨"https://pos.test", "POS1", "TIN1", true, true⟩
        ⟨"Shop", false, false, false, true⟩
        ⟨[⟨"Export", some TaxType.NOT_VAT, "3033030", 1, 100, "pcs", "303", false, ""⟩],
         "001", "UB01", none, none⟩ ""
        (fun _ => ⟨"SUCCESS", "", "B1", "L1", "QR", "D", 100, 0, 0⟩)).result =
      .error "No items to process" := by
  refine ⟨?_, ?_, ?_⟩
  · norm_num +decide [buildReceiptItems, addToGroup, buildItem, number_precision,
      roundHalfUp2]
  · norm_num +decide [createReceipt, buildReceiptItems, addToGroup, buildItem,
      lookupGroup, removeGroup, mainPhase, buildRequest, strTruthy, number_precision,
      roundHalfUp2]
  · norm_num +decide [createReceipt, buildReceiptItems, addToGroup, buildItem,
      lookupGroup, removeGroup, mainPhase, buildRequest, strTruthy, number_precision,
      roundHalfUp2]

/-- Witness for C8 (amended): on a request whose items all lack a
classification code, nothing is grouped, nothing is sent, nothing is
persisted, and the call fails with the no-items error. -/
theorem c8_no_items_error_witness :
    (createReceipt ⟨"https://pos.test", "POS1", "TIN1", true, true⟩
        ⟨"Shop", false, false, false, true⟩
        ⟨[⟨"NoCode", some TaxType.VAT_ABLE, "", 1, 100, "pcs", "101", false, ""⟩],
         "001", "UB01", none, none⟩ ""
        (fun _ => ⟨"SUCCESS", "", "B1", "L1", "QR", "D", 100, 0, 0⟩)).result =
      .error "No items to process" ∧
    (createReceipt ⟨"https://pos.test", "POS1", "TIN1", true, true⟩
        ⟨"Shop", false, false, false, true⟩
        ⟨[⟨"NoCode", some TaxType.VAT_ABLE, "", 1, 100, "pcs", "101", false, ""⟩],
         "001", "UB01", none, none⟩ ""
        (fun _ => ⟨"SUCCESS", "", "B1", "L1", "QR", "D", 100, 0, 0⟩)).sent = [] := by
  have h := c8_no_items_error ⟨"https://pos.test", "POS1", "TIN1", true, true⟩
    ⟨"Shop", false, false, false, true⟩
    ⟨[⟨"NoCode", some TaxType.VAT_ABLE, "", 1, 100, "pcs", "101", false, ""⟩],
     "001", "UB01", none, none⟩ ""
    (fun _ => ⟨"SUCCESS", "", "B1", "L1", "QR", "D", 100, 0, 0⟩)
  have hnil : buildReceiptItems
      (⟨"Shop", false, false, false, true⟩ : MerchantInfo)
      [⟨"NoCode", some TaxType.VAT_ABLE, "", 1, 100, "pcs", "101", false, ""⟩] = [] := by
    norm_num +decide [buildReceiptItems]
  exact ⟨h.1.mpr ⟨by simp [removeGroup, hnil], by simp [lookupGroup, hnil]⟩,
    (h.2 hnil).1⟩

/-- C3: evaluation of the webhook callback at the failing input.  The stored
invoice and its linked Payment Request are both already Paid, yet replaying a
PAID callback for the same invoice id invokes on_payment_authorized again
(notified = true); only the status write is suppressed. -/
theorem c3_duplicate_paid_callback_refires_hook :
    (qpayCallback ⟨some "INV1", none, some "PAID", none⟩
        [⟨"QI1", "PR1", "INV1", none, none, none, [], none, none, 100, none,
          "Paid", none, some 0⟩]
        (fun k => if k = "PR1" then some ⟨"Paid", true⟩ else none) 1).notified =
      true ∧
    ((qpayCallback ⟨some "INV1", none, some "PAID", none⟩
        [⟨"QI1", "PR1", "INV1", none, none, none, [], none, none, 100, none,
          "Paid", none, some 0⟩]
        (fun k => if k = "PR1" then some ⟨"Paid", true⟩ else none) 1).prOf "PR1") =
      some ⟨"Paid", true⟩ ∧
    (qpayCallback ⟨some "INV1", none, some "PAID", none⟩
        [⟨"QI1", "PR1", "INV1", none, none, none, [], none, none, 100, none,
          "Paid", none, some 0⟩]
        (fun k => if k = "PR1" then some ⟨"Paid", true⟩ else none) 1).response_status =
      "success" := by
  refine ⟨by decide, by decide, by decide⟩

/-- C9 (amended): _apply_payment_status always stores the raw response payload
and the check timestamp; STATUS_MAP is exactly the three-entry vocabulary; the
first row's status is uppercased before the vocabulary lookup, an unmatched
lookup leaves the stored status unchanged, and an empty row list leaves it
unchanged as well. -/
theorem c9_status_mapping (doc : QpayInvoiceDoc) (resp : PaymentCheckData)
    (pr : Option PaymentRequestRow) (now : ℕ) :
    (applyPaymentStatus doc resp pr now).doc.payment_result =
      some (.check resp) ∧
    (applyPaymentStatus doc resp pr now).doc.last_payment_check = some now ∧
    STATUS_MAP "PAID" = some "Paid" ∧
    STATUS_MAP "FAILED" = some "Failed" ∧
    STATUS_MAP "CANCELLED" = some "Cancelled" ∧
    (∀ s, s ≠ "PAID" → s ≠ "FAILED" → s ≠ "CANCELLED" → STATUS_MAP s = none) ∧
    (∀ row rest, resp.rows = row :: rest →
      (applyPaymentStatus doc resp pr now).doc.status =
        (extract_status row.payment_status row.status).getD doc.status) ∧
    (resp.rows = [] → (applyPaymentStatus doc resp pr now).doc.status = doc.status) := by
  refine ⟨?_, ?_, rfl, rfl, rfl, ?_, ?_, ?_⟩
  · unfold applyPaymentStatus
    rcases hr : resp.rows with - | ⟨row, rest⟩
    · rfl
    · rcases he : extract_status row.payment_status row.status with - | st
      · simp only [he]
      · simp only [he]
        by_cases hst : st = "Paid" <;> simp [hst]
  · unfold applyPaymentStatus
    rcases hr : resp.rows with - | ⟨row, rest⟩
    · rfl
    · rcases he : extract_status row.payment_status row.status with - | st
      · simp only [he]
      · simp only [he]
        by_cases hst : st = "Paid" <;> simp [hst]
  · intro s h1 h2 h3
    simp [STATUS_MAP, h1, h2, h3]
  · intro row rest hr
    unfold applyPaymentStatus
    rw [hr]
    rcases he : extract_status row.payment_status row.status with - | st
    · simp only [he, Option.getD_none]
    · simp only [he, Option.getD_some]
      by_cases hst : st = "Paid" <;> simp [hst]
  · intro hr
    unfold applyPaymentStatus
    rw [hr]

/-- Counterexample for C9: the lowercase status string "paid" lies outside the
fixed vocabulary (STATUS_MAP does not recognize it), yet the stored status
changes from Pending to Paid because the code uppercases before the lookup. -/
theorem c9_counterexample :
    STATUS_MAP "paid" = none ∧
    (applyPaymentStatus
        ⟨"QI1", "PR1", "INV1", none, none, none, [], none, none, 100, none,
          "Pending", none, none⟩
        ⟨[⟨none, some "paid"⟩]⟩ none 0).doc.status = "Paid" := by
  exact ⟨rfl, rfl⟩

/-- Witness for C9 (amended): a PAID row updates a Pending invoice to Paid and
the raw response payload is stored. -/
theorem c9_status_mapping_witness :
    (applyPaymentStatus
        ⟨"QI1", "PR1", "INV1", none, none, none, [], none, none, 100, none,
          "Pending", none, none⟩
        ⟨[⟨some "PAID", none⟩]⟩ none 5).doc.payment_result =
      some (.check ⟨[⟨some "PAID", none⟩]⟩) ∧
    (applyPaymentStatus
        ⟨"QI1", "PR1", "INV1", none, none, none, [], none, none, 100, none,
          "Pending", none, none⟩
        ⟨[⟨some "PAID", none⟩]⟩ none 5).doc.status = "Paid" := by
  have h := c9_status_mapping
    ⟨"QI1", "PR1", "INV1", none, none, none, [], none, none, 100, none,
      "Pending", none, none⟩
    ⟨[⟨some "PAID", none⟩]⟩ none 5
  refine ⟨h.1, ?_⟩
  have h7 := h.2.2.2.2.2.2.1 ⟨some "PAID", none⟩ [] rfl
  rw [h7]
  rfl

/-- C10: the public check_payment endpoint coerces both paging arguments to at
least one before forwarding, so the non-positive-paging error branch of
check_payment_status can never be taken from this endpoint. -/
theorem c10_paging_coerced (doc : QpayInvoiceDoc) (oracle : PaymentCheckData)
    (pr : Option PaymentRequestRow) (now : ℕ) (page_number page_limit : ℤ) :
    1 ≤ (checkPaymentPaging page_number page_limit).1 ∧
    1 ≤ (checkPaymentPaging page_number page_limit).2 ∧
    checkPayment doc oracle pr now page_number page_limit =
      .ok (applyPaymentStatus doc oracle pr now) := by
  refine ⟨le_max_left _ _, le_max_left _ _, ?_⟩
  have h1 : ¬ ((max 1 page_number) < 1 ∨ (max 1 page_limit) < 1) := by
    push_neg
    exact ⟨le_max_left _ _, le_max_left _ _⟩
  simp [checkPayment, checkPaymentStatusService, checkPaymentPaging, h1]
  rfl

/-- find? skips a leading segment on which the predicate fails. -/
theorem find?_append_right {α : Type} (p : α → Bool) (l₁ l₂ : List α)
    (h : ∀ x ∈ l₁, ¬ p x = true) : (l₁ ++ l₂).find? p = l₂.find? p := by
  induction l₁ with
  | nil => rfl
  | cons a l ih =>
    rw [List.cons_append, List.find?_cons_of_neg _ (h a (by simp))]
    exact ih (fun x hx => h x (by simp [hx]))

/-- Replacing a row whose name occurs nowhere leaves the table unchanged. -/
theorem replaceInvoice_of_fresh (db : List QpayInvoiceDoc) (doc : QpayInvoiceDoc)
    (h : ∀ r ∈ db, r.name ≠ doc.name) : replaceInvoice db doc = db := by
  unfold replaceInvoice
  rw [List.map_congr_left (g := id) (fun r hr => by simp [h r hr]), List.map_id]

/-- C4: starting from a table with no invoice for this payment request,
create_invoice inserts one row; a second call with new field values updates
that same row in place (same name, fields of the second call), the table still
holds exactly one row for the payment request, and any attempt to save a
different invoice document for the same payment request is rejected by the
before_save uniqueness check. -/
theorem c4_upsert_idempotent (db : List QpayInvoiceDoc) (pr : String)
    (f₁ f₂ : UpsertFields) (n₁ n₂ : String)
    (hpr : pr ≠ "")
    (hnone : ∀ r ∈ db, r.payment_request ≠ pr)
    (hfresh : ∀ r ∈ db, r.name ≠ n₁)
    (hf₁ : f₁.invoice_id ≠ "")
    (hf₂ : f₂.invoice_id ≠ "") :
    ∃ d₁ d₂ : QpayInvoiceDoc,
      upsertInvoiceDoc db pr f₁ n₁ = .ok (db ++ [d₁], d₁) ∧
      d₁.name = n₁ ∧ d₁.payment_request = pr ∧
      upsertInvoiceDoc (db ++ [d₁]) pr f₂ n₂ = .ok (db ++ [d₂], d₂) ∧
      d₂ = applyFields d₁ pr f₂ ∧
      d₂.name = n₁ ∧ d₂.invoice_id = f₂.invoice_id ∧
      d₂.qr_text = f₂.qr_text ∧ d₂.qr_image = f₂.qr_image ∧
      d₂.payment_amount = f₂.payment_amount ∧
      ((db ++ [d₂]).filter (fun r => r.payment_request = pr)).length = 1 ∧
      (∀ doc : QpayInvoiceDoc, doc.payment_request = pr → doc.name ≠ n₁ →
        ∃ msg, saveInvoiceDoc (db ++ [d₂]) doc = .error msg) := by
  refine ⟨{ applyFields (emptyInvoiceDoc n₁) pr f₁ with status := "Pending" },
    applyFields { applyFields (emptyInvoiceDoc n₁) pr f₁ with status := "Pending" } pr f₂,
    ?_, rfl, rfl, ?_, rfl, rfl, rfl, rfl, rfl, rfl, ?_, ?_⟩
  · unfold upsertInvoiceDoc
    rw [if_neg (by simpa using hf₁)]
    have hfind : db.find? (fun r => r.payment_request = pr) = none :=
      List.find?_eq_none.mpr (fun r hr => by simpa using hnone r hr)
    simp only [hfind]
    unfold saveInvoiceDoc
    rw [if_neg ?hc]
    case hc =>
      rintro ⟨-, r, hr, hrpr, -⟩
      exact hnone r hr hrpr
    unfold commitRow
    rw [if_neg ?hd]
    case hd =>
      intro hany
      rcases List.any_eq_true.mp hany with ⟨r, hr, hname⟩
      exact hfresh r hr (by simpa using hname)
    rfl
  · unfold upsertInvoiceDoc
    rw [if_neg (by simpa using hf₂)]
    have hfind₂ : (db ++
        [({ applyFields (emptyInvoiceDoc n₁) pr f₁ with
            status := "Pending" } : QpayInvoiceDoc)]).find?
          (fun r => r.payment_request = pr) =
        some { applyFields (emptyInvoiceDoc n₁) pr f₁ with status := "Pending" } := by
      rw [find?_append_right _ db _ (fun r hr => by simpa using hnone r hr)]
      rw [List.find?_cons_of_pos _ (by simp [applyFields])]
    simp only [hfind₂]
    rw [if_neg (by decide : ¬ ("Pending" : String) = "")]
    unfold saveInvoiceDoc
    rw [if_neg ?hc2]
    case hc2 =>
      intro hcond
      obtain ⟨s, hs, hspr, hsname⟩ := hcond.2
      rcases List.mem_append.mp hs with hs₀ | hs₁
      · exact hnone s hs₀ hspr
      · apply hsname
        simp only [List.mem_singleton] at hs₁
        rw [hs₁]
        rfl
    unfold commitRow
    rw [if_pos ?he]
    case he =>
      refine List.any_eq_true.mpr
        ⟨({ applyFields (emptyInvoiceDoc n₁) pr f₁ with
            status := "Pending" } : QpayInvoiceDoc),
          List.mem_append_right _ (by simp), by simp [applyFields]⟩
    unfold replaceInvoice
    rw [List.map_append]
    rw [List.map_congr_left (g := id)
      (fun r hr => by simp [applyFields, emptyInvoiceDoc, hfresh r hr]), List.map_id]
    simp [applyFields, emptyInvoiceDoc, Except.map]
  · rw [List.filter_append]
    rw [List.filter_eq_nil_iff.mpr (fun r hr => by simpa using hnone r hr)]
    simp [applyFields, emptyInvoiceDoc]
  · intro doc hdocpr hdocname
    refine ⟨"Payment Request " ++ doc.payment_request ++
      " already has a QPay invoice.", ?_⟩
    unfold saveInvoiceDoc
    rw [if_pos ?hf]
    case hf =>
      refine ⟨by rw [hdocpr]; exact hpr,
        applyFields { applyFields (emptyInvoiceDoc n₁) pr f₁ with status := "Pending" } pr f₂,
        List.mem_append_right _ (by simp),
        by simp [applyFields, hdocpr], ?_⟩
      intro hn
      apply hdocname
      rw [← hn]
      simp [applyFields, emptyInvoiceDoc]

/-- Witness for C4: two concrete upsert calls against an initially empty
table, followed by the rejection of a stray second invoice document. -/
theorem c4_upsert_idempotent_witness :
    ∃ d₁ d₂ : QpayInvoiceDoc,
      upsertInvoiceDoc [] "PR1"
        ⟨"INVA", some "CODE", some "qrA", none, [], none, none, 10, none⟩ "QI1" =
        .ok ([] ++ [d₁], d₁) ∧
      d₁.name = "QI1" ∧ d₁.payment_request = "PR1" ∧
      upsertInvoiceDoc ([] ++ [d₁]) "PR1"
        ⟨"INVB", some "CODE", some "qrB", none, [], none, none, 20, none⟩ "QI2" =
        .ok ([] ++ [d₂], d₂) ∧
      d₂ = applyFields d₁ "PR1"
        ⟨"INVB", some "CODE", some "qrB", none, [], none, none, 20, none⟩ ∧
      d₂.name = "QI1" ∧ d₂.invoice_id = "INVB" ∧
      d₂.qr_text = some "qrB" ∧ d₂.qr_image = none ∧
      d₂.payment_amount = 20 ∧
      (([] ++ [d₂]).filter (fun r : QpayInvoiceDoc => r.payment_request = "PR1")).length = 1 ∧
      (∀ doc : QpayInvoiceDoc, doc.payment_request = "PR1" → doc.name ≠ "QI1" →
        ∃ msg, saveInvoiceDoc ([] ++ [d₂]) doc = .error msg) :=
  c4_upsert_idempotent [] "PR1"
    ⟨"INVA", some "CODE", some "qrA", none, [], none, none, 10, none⟩
    ⟨"INVB", some "CODE", some "qrB", none, [], none, none, 20, none⟩
    "QI1" "QI2" (by decide) (by simp) (by simp) (by decide) (by decide)

/-- C5: every validate coerces an Individual payer's record to
retain_sensitive = 0 with null QR fields whatever the inputs; create_payment
stores Individual records with the same redaction; the scrub pass nulls the QR
fields of every record whose retention flag is unset and leaves opted-in
records alone; and a non-Individual payer's stored record keeps the gateway QR
fields with retain_sensitive = 1. -/
theorem c5_individual_redaction (cfg : SpecialTaxConfig)
    (pe : Option String) (amt : Option ℚ) (er sty : Option String)
    (cityRate : ℚ) (inv : GatewayInvoice) :
    (∀ d : PaymentTransactionDoc, d.payer_type = "Individual" →
      (validateTransaction d).retain_sensitive = 0 ∧
      (validateTransaction d).qr_text = none ∧
      (validateTransaction d).qr_image = none) ∧
    (∀ tx, createPayment cfg pe amt "Individual" er sty cityRate inv = .ok tx →
      tx.retain_sensitive = 0 ∧ tx.qr_text = none ∧ tx.qr_image = none) ∧
    (∀ d : PaymentTransactionDoc, d.retain_sensitive = 0 →
      (scrubOne d).qr_text = none ∧ (scrubOne d).qr_image = none) ∧
    (∀ d : PaymentTransactionDoc, d.retain_sensitive ≠ 0 → scrubOne d = d) ∧
    (∀ pt tx, pt ≠ "Individual" →
      createPayment cfg pe amt pt er sty cityRate inv = .ok tx →
      tx.retain_sensitive = 1 ∧ tx.qr_text = inv.qr_text ∧
      tx.qr_image = inv.qr_image) := by
  refine ⟨?_, ?_, ?_, ?_, ?_⟩
  · intro d hd
    simp [validateTransaction, applyPrivacyRules, computeTotal, hd]
  · intro tx h
    unfold createPayment at h
    by_cases h1 : strTruthy pe
    · by_cases h2 : amt = none ∨ amt = some 0
      · simp [h1, h2] at h
      · simp only [h1, h2, not_true_eq_false, Bool.true_eq_false, if_false,
          if_neg, Except.ok.injEq] at h
        subst h
        simp [validateTransaction, applyPrivacyRules, computeTotal]
    · simp [h1] at h
  · intro d hd
    simp [scrubOne, hd]
  · intro d hd
    simp [scrubOne, hd]
  · intro pt tx hpt h
    unfold createPayment at h
    by_cases h1 : strTruthy pe
    · by_cases h2 : amt = none ∨ amt = some 0
      · simp [h1, h2] at h
      · simp only [h1, h2, not_true_eq_false, Bool.true_eq_false, if_false,
          if_neg, Except.ok.injEq] at h
        subst h
        simp [validateTransaction, applyPrivacyRules, computeTotal, hpt]
    · simp [h1] at h

/-- Witness for C5: a concrete Individual payment with QR data returned by the
gateway stores a fully redacted row, and the scrub pass keeps it redacted. -/
theorem c5_individual_redaction_witness :
    ∃ tx : PaymentTransactionDoc,
      createPayment ⟨none, fun _ => none⟩ (some "a@b") (some 1000) "Individual"
        none none 1 ⟨some "I1", some "QT", some "QIMG"⟩ = .ok tx ∧
      tx.retain_sensitive = 0 ∧ tx.qr_text = none ∧ tx.qr_image = none ∧
      (scrubOne tx).qr_text = none := by
  have hEval : createPayment ⟨none, fun _ => none⟩ (some "a@b") (some 1000)
      "Individual" none none 1 ⟨some "I1", some "QT", some "QIMG"⟩ =
      .ok ⟨"Pending", "Individual", some "a@b", none, 0, 1000, 0, 10, 1010,
        none, none, some "I1"⟩ := by
    norm_num +decide [createPayment, computeSpecialTax, resolveSpecialRate,
      pyRound2, validateTransaction, applyPrivacyRules, computeTotal, strTruthy]
  have h := (c5_individual_redaction ⟨none, fun _ => none⟩ (some "a@b")
    (some 1000) none none 1 ⟨some "I1", some "QT", some "QIMG"⟩).2.1
    ⟨"Pending", "Individual", some "a@b", none, 0, 1000, 0, 10, 1010,
      none, none, some "I1"⟩ hEval
  have hs := (c5_individual_redaction ⟨none, fun _ => none⟩ (some "a@b")
    (some 1000) none none 1 ⟨some "I1", some "QT", some "QIMG"⟩).2.2.1
    ⟨"Pending", "Individual", some "a@b", none, 0, 1000, 0, 10, 1010,
      none, none, some "I1"⟩ h.1
  exact ⟨_, hEval, h.1, h.2.1, h.2.2, hs.1⟩

/-- C6: the stored row of create_payment carries
special_tax = round(base * rate / 100, 2) with the rate resolved from the
named type, else the default-flagged type, else zero;
city_tax = round(base * city_rate / 100, 2); and the stored total is the
plain sum of the three components with no further rounding.  With a
default-flagged 5% rate and base 2000, the special tax is 100. -/
theorem c6_special_city_tax (cfg : SpecialTaxConfig) (pe er sty : Option String)
    (base cityRate : ℚ) (pt : String) (inv : GatewayInvoice) :
    (∀ tx, createPayment cfg pe (some base) pt er sty cityRate inv = .ok tx →
      tx.amount = base ∧
      tx.special_tax = pyRound2 (base * resolveSpecialRate cfg sty / 100) ∧
      tx.city_tax = pyRound2 (base * (cityRate / 100)) ∧
      tx.total = base + tx.special_tax + tx.city_tax) ∧
    computeSpecialTax ⟨some 5, fun _ => none⟩ 2000 none = 100 := by
  constructor
  · intro tx h
    unfold createPayment at h
    by_cases h1 : strTruthy pe
    · by_cases h2 : (some base : Option ℚ) = none ∨ (some base : Option ℚ) = some 0
      · rcases h2 with h2 | h2
        · simp at h2
        · simp only [Option.some.injEq] at h2
          simp [h1, h2] at h
      · simp only [h1, h2, not_true_eq_false, Bool.true_eq_false, if_false,
          if_neg, Except.ok.injEq] at h
        subst h
        by_cases h3 : pt = "Individual" <;>
          simp [validateTransaction, applyPrivacyRules, computeTotal,
            computeSpecialTax, h3]
    · simp [h1] at h
  · norm_num [computeSpecialTax, resolveSpecialRate, pyRound2, strTruthy]

/-- Witness for C6: base 2000, default-flagged 5% special tax, 1% city tax:
the stored row has special_tax 100, city_tax 20 and total 2120 = 2000+100+20. -/
theorem c6_special_city_tax_witness :
    ∃ tx : PaymentTransactionDoc,
      createPayment ⟨some 5, fun _ => none⟩ (some "x@y") (some 2000) "Entity"
        none none 1 ⟨some "I1", none, none⟩ = .ok tx ∧
      tx.special_tax = 100 ∧ tx.city_tax = 20 ∧ tx.total = 2120 := by
  have hEval : createPayment ⟨some 5, fun _ => none⟩ (some "x@y") (some 2000)
      "Entity" none none 1 ⟨some "I1", none, none⟩ =
      .ok ⟨"Pending", "Entity", some "x@y", none, 1, 2000, 100, 20, 2120,
        none, none, some "I1"⟩ := by
    norm_num +decide [createPayment, computeSpecialTax, resolveSpecialRate,
      pyRound2, validateTransaction, applyPrivacyRules, computeTotal, strTruthy]
  have h := (c6_special_city_tax ⟨some 5, fun _ => none⟩ (some "x@y") none none
    2000 1 "Entity" ⟨some "I1", none, none⟩).1
    ⟨"Pending", "Entity", some "x@y", none, 1, 2000, 100, 20, 2120,
      none, none, some "I1"⟩ hEval
  refine ⟨_, hEval, ?_, ?_, ?_⟩
  · rw [h.2.1]
    norm_num [pyRound2, resolveSpecialRate, strTruthy]
  · rw [h.2.2.1]
    norm_num [pyRound2]
  · rw [h.2.2.2, h.2.1, h.2.2.1]
    norm_num [pyRound2, resolveSpecialRate, strTruthy]

/-- C7 (amended): the cached bearer token is reused exactly while
now < expiry - leeway with no forced refresh; once now reaches or exceeds
expiry - leeway (or on force_refresh, or with an empty cache) a full
password-grant re-authentication runs, and a successful one stores a
brand-new token expiring at now + expires_in — the cached expiry is never
extended in place. -/
theorem c7_token_cache (cache : Option CachedToken) (now leeway : ℚ)
    (force : Bool) (auth : Except String AuthResp) :
    (∀ c, cache = some c → force = false → now < c.expires_at - leeway →
      getTpiToken cache now leeway force auth = .ok (c.token, some c)) ∧
    (∀ c, cache = some c → c.expires_at - leeway ≤ now →
      getTpiToken cache now leeway force auth = refreshTpi now auth) ∧
    (force = true → getTpiToken cache now leeway force auth = refreshTpi now auth) ∧
    (cache = none → getTpiToken cache now leeway force auth = refreshTpi now auth) ∧
    (∀ a t, auth = .ok a → a.access_token = some t → t ≠ "" →
      refreshTpi now auth = .ok (t, some ⟨t, now + a.expires_in⟩)) := by
  refine ⟨?_, ?_, ?_, ?_, ?_⟩
  · intro c hc hf hlt
    simp only [getTpiToken, hf, hc, Bool.false_eq_true, if_false]
    rw [if_pos hlt]
  · intro c hc hle
    by_cases hf : force
    · simp [getTpiToken, hf]
    · simp only [getTpiToken, hc, Bool.not_eq_true] at hf ⊢
      rw [hf]
      simp only [Bool.false_eq_true, if_false]
      rw [if_neg (not_lt.mpr hle)]
  · intro hf
    simp [getTpiToken, hf]
  · intro hc
    by_cases hf : force <;> simp [getTpiToken, hc, hf]
  · intro a t ha ht hne
    simp [refreshTpi, ha, ht, hne]

/-- Counterexample for C7: at now = expiry - leeway the claim says the token
has not yet expired (now does not exceed expiry - leeway), but the code
discards the cached token and re-authenticates, returning the fresh token. -/
theorem c7_counterexample :
    ¬ ((70 : ℚ) > 100 - 30) ∧
    getTpiToken (some ⟨"tok", 100⟩) 70 30 false (.ok ⟨some "new", 60⟩) =
      .ok ("new", some ⟨"new", 130⟩) ∧
    ("new" : String) ≠ "tok" := by
  refine ⟨by norm_num, ?_, by decide⟩
  norm_num +decide [getTpiToken, refreshTpi]

/-- Witness for C7 (amended): one tick before the leeway boundary the cached
token is reused untouched; a successful re-authentication at time 69 stores a
token expiring at 129 = 69 + 60. -/
theorem c7_token_cache_witness :
    getTpiToken (some ⟨"tok", 100⟩) 69 30 false (.ok ⟨some "new", 60⟩) =
      .ok ("tok", some ⟨"tok", 100⟩) ∧
    refreshTpi 69 (.ok ⟨some "new", 60⟩) = .ok ("new", some ⟨"new", 129⟩) := by
  have h := c7_token_cache (some ⟨"tok", 100⟩) 69 30 false (.ok ⟨some "new", 60⟩)
  refine ⟨h.1 ⟨"tok", 100⟩ rfl rfl (by norm_num), ?_⟩
  have h5 := h.2.2.2.2 ⟨some "new", 60⟩ "new" rfl rfl (by decide)
  rw [h5]
  norm_num

end MnPayments
